import Mathlib

/-!
Verification of the ParkPulse booking time-window and cost logic.

The definitions below are a shallow embedding of the TypeScript source:

* `timeToMinutes`        — `src/components/ConfirmationModal.tsx`, lines 13–20
* `calculateTotalCost`   — `src/components/ConfirmationModal.tsx`, lines 23–36
* `handleConfirmClick`   — the validation prefix of
                           `src/components/ConfirmationModal.tsx`, lines 59–80
* `formTimeToMinutes`    — `timeToMinutes` of the listing form
                           (`src/unnamed/part_002`, lines 13–25)
* `profileCalculateTotalCost` — `calculateTotalCost` of the profile dashboard
                           (`src/unnamed/part_001`, lines 9–28)
* `generateBookingRequestEmail`, `generateBookingConfirmationEmails`
                         — `src/services/geminiService.ts`, lines 131–169 and
                           240–285

JavaScript machine numbers that only ever hold small integers are embedded as
`ℕ`/`ℤ`; the `NaN` sentinel becomes `Option.none`; currency arithmetic
(`rate * hours` followed by `toFixed(2)`) is embedded over `ℚ` with the
ECMAScript `toFixed` rounding rule ("choose the integer n with n/10^f closest
to the value; on a tie pick the larger n"), i.e. round half up, producing an
integer number of cents.  All example values appearing in the claims are
exactly representable, so the rational embedding agrees with IEEE-754 doubles
on every input used below.
-/

namespace ParkPulse

/-- The characters of a JavaScript string, in order.  All string functions
below work on this list. -/
def chars (s : String) : List Char := s.toList

/-- Numeric value of a decimal digit character (`'0'` ↦ 0, …, `'9'` ↦ 9). -/
def dval (c : Char) : ℕ := c.toNat - 48

/-- Value of a non-empty run of decimal digits, most significant first.
Embeds what both JavaScript `Number` and `parseInt` do with a pure digit
string. -/
def digitsToNat (l : List Char) : ℕ :=
  l.foldl (fun acc c => acc * 10 + dval c) 0

/-- `timeToMinutes` from `ConfirmationModal.tsx` (lines 13–20).

```js
const timeToMinutes = (timeStr) => {
    if (!timeStr || !/^\d{1,2}:\d{2}$/.test(timeStr)) return NaN;
    const [hours, minutes] = timeStr.split(':').map(Number);
    if (isNaN(hours) || isNaN(minutes) || hours < 0 || hours > 23 ||
        minutes < 0 || minutes > 59) return NaN;
    return hours * 60 + minutes;
};
```

A string passing the regex is one or two digits, a colon, then exactly two
digits; splitting such a string at the colon and applying `Number` yields the
two digit-run values (never `NaN`, never negative, so those guards are
vacuous once the regex holds).  `NaN` is embedded as `none`. -/
def timeToMinutes (timeStr : String) : Option ℕ :=
  match chars timeStr with
  | [h1, c, m1, m2] =>
      if h1.isDigit ∧ c = ':' ∧ m1.isDigit ∧ m2.isDigit then
        if dval h1 ≤ 23 ∧ dval m1 * 10 + dval m2 ≤ 59 then
          some (dval h1 * 60 + (dval m1 * 10 + dval m2))
        else none
      else none
  | [h1, h2, c, m1, m2] =>
      if h1.isDigit ∧ h2.isDigit ∧ c = ':' ∧ m1.isDigit ∧ m2.isDigit then
        if dval h1 * 10 + dval h2 ≤ 23 ∧ dval m1 * 10 + dval m2 ≤ 59 then
          some ((dval h1 * 10 + dval h2) * 60 + (dval m1 * 10 + dval m2))
        else none
      else none
  | _ => none

/-- JavaScript `String.prototype.split(':')` on the character list of the
string: splits at every colon, keeping empty pieces (`"".split(':')` is
`[""]`, `":".split(':')` is `["", ""]`). -/
def splitCols : List Char → List (List Char)
  | [] => [[]]
  | c :: rest =>
      if c = ':' then [] :: splitCols rest
      else
        match splitCols rest with
        | [] => [[c]]
        | w :: ws => (c :: w) :: ws

/-- Longest decimal-digit prefix of a character list, `none` when there is no
leading digit.  The tail after the digits is ignored, exactly as JavaScript
`parseInt` ignores trailing garbage. -/
def leadingDigits (l : List Char) : Option ℕ :=
  match l.takeWhile Char.isDigit with
  | [] => none
  | ds => some (digitsToNat ds)

/-- JavaScript `parseInt(s, 10)`: skip leading whitespace, read an optional
sign, then the longest run of decimal digits; `NaN` (here `none`) when no
digit follows.  Trailing characters after the digits are discarded. -/
def parseIntTen (l : List Char) : Option ℤ :=
  let t := l.dropWhile fun c => c = ' ' ∨ c = '\t' ∨ c = '\n' ∨ c = '\r'
  match t with
  | '-' :: rest => (leadingDigits rest).map fun n => -(n : ℤ)
  | '+' :: rest => (leadingDigits rest).map fun n => (n : ℤ)
  | rest => (leadingDigits rest).map fun n => (n : ℤ)

/-- `timeToMinutes` from the listing form (`src/unnamed/part_002`,
lines 13–25).

```js
const timeToMinutes = (time) => {
    const parts = time.split(':');
    if (parts.length === 2) {
        const hours = parseInt(parts[0], 10);
        const minutes = parseInt(parts[1], 10);
        if (!isNaN(hours) && !isNaN(minutes) && hours >= 0 && hours <= 23 &&
            minutes >= 0 && minutes <= 59) {
            return (hours * 60) + minutes;
        }
    }
    return -1;
};
```

The `-1` sentinel of the source is kept literally, so the result is `ℤ`. -/
def formTimeToMinutes (time : String) : ℤ :=
  match splitCols (chars time) with
  | [p0, p1] =>
      match parseIntTen p0, parseIntTen p1 with
      | some hours, some minutes =>
          if 0 ≤ hours ∧ hours ≤ 23 ∧ 0 ≤ minutes ∧ minutes ≤ 59 then
            hours * 60 + minutes
          else -1
      | _, _ => -1
  | _ => -1

/-- Outcome of the booking-window validation performed by
`handleConfirmClick`: the three user-facing rejections, or acceptance
carrying the parsed minute pair. -/
inductive ValidationResult where
  | malformedTime
  | endNotAfterStart
  | outsideListingWindow
  | accepted (startMin endMin : ℕ)
  deriving DecidableEq

/-- JavaScript `<` on numbers that may be `NaN` (embedded as `none`): every
comparison involving `NaN` evaluates to false.  `x > y` of the source is
`jsLt y x`. -/
def jsLt (a b : Option ℕ) : Bool :=
  match a, b with
  | some x, some y => decide (x < y)
  | _, _ => false

/-- The validation prefix of `handleConfirmClick` from
`ConfirmationModal.tsx` (lines 59–80).

```js
const startMinutes = timeToMinutes(selectedStartTime);
const endMinutes = timeToMinutes(selectedEndTime);
const listingStartMinutes = timeToMinutes(listing.startTime);
const listingEndMinutes = timeToMinutes(listing.endTime);
if (isNaN(startMinutes) || isNaN(endMinutes)) return MalformedTime;
if (startMinutes >= endMinutes) return EndNotAfterStart;
if (startMinutes < listingStartMinutes || endMinutes > listingEndMinutes)
    return OutsideListingWindow;
// accepted: proceeds to onConfirm with the validated span
```

Only the two requested times are tested with `isNaN`; the listing bounds
enter the third check through plain `<`/`>` comparisons, which are false
whenever a bound is `NaN`. -/
def handleConfirmClick
    (selectedStartTime selectedEndTime listingStartTime listingEndTime : String) :
    ValidationResult :=
  match timeToMinutes selectedStartTime, timeToMinutes selectedEndTime with
  | some startMinutes, some endMinutes =>
      if endMinutes ≤ startMinutes then .endNotAfterStart
      else if jsLt (some startMinutes) (timeToMinutes listingStartTime)
            || jsLt (timeToMinutes listingEndTime) (some endMinutes) then
        .outsideListingWindow
      else .accepted startMinutes endMinutes
  | _, _ => .malformedTime

/-- ECMAScript `Number.prototype.toFixed(2)` as an exact operation on `ℚ`,
returning an integer count of cents: the integer `n` with `n / 100` closest
to the value, a tie going to the larger `n` — that is, round half up. -/
def jsToFixed2 (x : ℚ) : ℤ := Int.floor (x * 100 + 1 / 2)

/-- `calculateTotalCost` from `ConfirmationModal.tsx` (lines 23–36).

```js
const calculateTotalCost = (rate, startTime, endTime) => {
    const startMinutes = timeToMinutes(startTime);
    const endMinutes = timeToMinutes(endTime);
    if (isNaN(startMinutes) || isNaN(endMinutes) || endMinutes <= startMinutes) {
        return '0.00';
    }
    const durationMinutes = endMinutes - startMinutes;
    const durationHours = durationMinutes / 60;
    const total = rate * durationHours;
    return total.toFixed(2);
}
```

The displayed dollar string is embedded as its value in cents (`'0.00'` is
`0`). -/
def calculateTotalCost (rate : ℚ) (startTime endTime : String) : ℤ :=
  match timeToMinutes startTime, timeToMinutes endTime with
  | some startMinutes, some endMinutes =>
      if endMinutes ≤ startMinutes then 0
      else jsToFixed2 (rate * ((endMinutes - startMinutes : ℕ) : ℚ) / 60)
  | _, _ => 0

/-- The integer fragment of JavaScript `Number(string)`, applied to the
components of a split time string: surrounding whitespace is trimmed, the
empty (or all-whitespace) string converts to `0`, an optional sign followed
by decimal digits converts to the signed value, anything else is `NaN`
(`none`).  (The builtin also accepts fractional, exponent and hex forms; no
time-string component appearing in the spec or the claims has those
shapes.) -/
def jsNumber (l : List Char) : Option ℤ :=
  let isWs := fun c : Char => c = ' ' ∨ c = '\t' ∨ c = '\n' ∨ c = '\r'
  match ((l.dropWhile isWs).reverse.dropWhile isWs).reverse with
  | [] => some 0
  | c :: rest =>
      if c = '-' then
        if rest ≠ [] ∧ rest.all Char.isDigit then some (-(digitsToNat rest : ℤ))
        else none
      else if c = '+' then
        if rest ≠ [] ∧ rest.all Char.isDigit then some ((digitsToNat rest : ℤ))
        else none
      else if (c :: rest).all Char.isDigit then some ((digitsToNat (c :: rest) : ℤ))
      else none

/-- Component `i` of a split time string, read the way the dashboard's
destructuring `const [h, m] = s.split(':').map(Number)` reads it: a missing
component is `undefined`, and `Number(undefined)` is `NaN` (`none`). -/
def jsNumberAt (parts : List (List Char)) (i : ℕ) : Option ℤ :=
  match parts[i]? with
  | none => none
  | some p => jsNumber p

/-- `calculateTotalCost` from the profile dashboard (`src/unnamed/part_001`,
lines 9–28).

```js
const calculateTotalCost = (rate, startTime, endTime) => {
  try {
    const [startHours, startMinutes] = startTime.split(':').map(Number);
    const [endHours, endMinutes] = endTime.split(':').map(Number);
    if ([startHours, startMinutes, endHours, endMinutes].some(isNaN)) return 'N/A';
    const startDate = new Date(); startDate.setHours(startHours, startMinutes, 0, 0);
    const endDate = new Date();   endDate.setHours(endHours, endMinutes, 0, 0);
    // For robustness, if endDate is before startDate, assume it's the next day.
    if (endDate <= startDate) endDate.setDate(endDate.getDate() + 1);
    const durationMillis = endDate.getTime() - startDate.getTime();
    const durationHours = durationMillis / (1000 * 60 * 60);
    return (rate * durationHours).toFixed(2);
  } catch (e) { return 'N/A'; }
}
```

`setHours(h, m, 0, 0)` and `setDate(d + 1)` act linearly on the epoch value
for integer arguments (any fixed-offset day), so the millisecond difference
divided by an hour is `(adjustedEnd - startTotal) / 60` with totals in
minutes and one day (1440 minutes) added when the end does not lie strictly
after the start.  The `try`/`catch` cannot fire on this pure arithmetic, so
the only `'N/A'` exit (`none` here) is the `isNaN` test on the four
components.  The displayed dollar string is embedded as cents. -/
def profileCalculateTotalCost (rate : ℚ) (startTime endTime : String) : Option ℤ :=
  match jsNumberAt (splitCols (chars startTime)) 0, jsNumberAt (splitCols (chars startTime)) 1,
        jsNumberAt (splitCols (chars endTime)) 0, jsNumberAt (splitCols (chars endTime)) 1 with
  | some startHours, some startMinutes, some endHours, some endMinutes =>
      some (jsToFixed2 (rate *
        (((if endHours * 60 + endMinutes ≤ startHours * 60 + startMinutes then
              endHours * 60 + endMinutes + 1440
            else endHours * 60 + endMinutes) - (startHours * 60 + startMinutes) : ℤ) : ℚ)
        / 60))
  | _, _, _, _ => none

/-- JSON values, the possible results of `JSON.parse` on the model's text. -/
inductive JsonValue where
  | jnull
  | jbool (b : Bool)
  | jnum (q : ℚ)
  | jstr (s : String)
  | jarr (elems : List JsonValue)
  | jobj (fields : List (String × JsonValue))

/-- The fields of the source's `Booking` record that the email-generation
functions read (`src/types` has more; none of the others are used by
`generateBookingRequestEmail`). -/
structure Booking where
  location : String
  bookerName : String
  bookerEmail : String
  date : String
  startTime : String
  endTime : String

/-- The `details` argument of `generateBookingConfirmationEmails`. -/
structure ConfirmationDetails where
  bookerName : String
  ownerEmail : String
  location : String
  date : String
  startTime : String
  endTime : String
  rate : ℚ

/-- The fixed fallback object of `generateBookingRequestEmail`
(`geminiService.ts`, lines 132–135). -/
def requestEmailFallback (booking : Booking) : JsonValue :=
  .jobj
    [("subject", .jstr ("New Booking Request for " ++ booking.location)),
     ("body", .jstr ("You have a new booking request from " ++ booking.bookerName
        ++ " for your driveway at " ++ booking.location ++ " on " ++ booking.date
        ++ ". Please log in to your ParkPulse dashboard to respond."))]

/-- The fixed fallback object of `generateBookingConfirmationEmails`
(`geminiService.ts`, lines 243–248). -/
def confirmationEmailsFallback (details : ConfirmationDetails) : JsonValue :=
  .jobj
    [("bookerSubject", .jstr ("Booking Confirmed: " ++ details.location)),
     ("bookerEmailContent", .jstr ("Your booking for " ++ details.location ++ " on "
        ++ details.date ++ " from " ++ details.startTime ++ " to " ++ details.endTime
        ++ " is confirmed.")),
     ("ownerSubject", .jstr ("Booking Confirmed: " ++ details.location)),
     ("ownerEmailContent", .jstr ("Your driveway at " ++ details.location
        ++ " has been booked by " ++ details.bookerName ++ " on " ++ details.date
        ++ " from " ++ details.startTime ++ " to " ++ details.endTime ++ "."))]

/-- `generateBookingRequestEmail` (`geminiService.ts`, lines 131–169), with
the two external effects as explicit inputs: `modelCall` is the outcome of
`ai.models.generateContent` (`Except.error` when it throws, `Except.ok` the
response text otherwise) and `jsonParse` is `JSON.parse` (`none` when it
throws).  The source's outer `try`/`catch` returns the fallback when the
call throws; the inner `try`/`catch` returns the fallback when the text does
not parse; a successful parse is returned unchecked. -/
def generateBookingRequestEmail (booking : Booking)
    (modelCall : Except Unit String) (jsonParse : String → Option JsonValue) :
    JsonValue :=
  match modelCall with
  | .error _ => requestEmailFallback booking
  | .ok text =>
      match jsonParse text with
      | none => requestEmailFallback booking
      | some v => v

/-- `generateBookingConfirmationEmails` (`geminiService.ts`, lines 240–285),
embedded exactly as `generateBookingRequestEmail`: fallback when the model
call throws or its text fails to parse, the parsed value otherwise. -/
def generateBookingConfirmationEmails (details : ConfirmationDetails)
    (modelCall : Except Unit String) (jsonParse : String → Option JsonValue) :
    JsonValue :=
  match modelCall with
  | .error _ => confirmationEmailsFallback details
  | .ok text =>
      match jsonParse text with
      | none => confirmationEmailsFallback details
      | some v => v

/-- A well-formed single-email result: a JSON object with exactly the string
fields `subject` and `body` (the shape `singleEmailSchema` requires). -/
def isSingleEmailShape : JsonValue → Bool
  | .jobj [(k1, .jstr _), (k2, .jstr _)] => k1 == "subject" && k2 == "body"
  | _ => false

/-- A well-formed confirmation-emails result: a JSON object with exactly the
four string fields `bookingConfirmationEmailSchema` requires. -/
def isConfirmationEmailShape : JsonValue → Bool
  | .jobj [(k1, .jstr _), (k2, .jstr _), (k3, .jstr _), (k4, .jstr _)] =>
      k1 == "bookerSubject" && k2 == "bookerEmailContent"
        && k3 == "ownerSubject" && k4 == "ownerEmailContent"
  | _ => false

/-- Modelled from the spec (§4.1 Time Parsing): a valid time string is a
1–2-digit hour, a single colon, an exactly-2-digit minute, with hour in
[0,23] and minute in [0,59]; its denotation is the pair (hours, minutes).
This is the spec-side contract the source parsers are compared against. -/
def specTimeValue (s : String) : Option (ℕ × ℕ) :=
  match chars s with
  | [h1, c, m1, m2] =>
      if h1.isDigit ∧ c = ':' ∧ m1.isDigit ∧ m2.isDigit
          ∧ dval h1 ≤ 23 ∧ dval m1 * 10 + dval m2 ≤ 59 then
        some (dval h1, dval m1 * 10 + dval m2)
      else none
  | [h1, h2, c, m1, m2] =>
      if h1.isDigit ∧ h2.isDigit ∧ c = ':' ∧ m1.isDigit ∧ m2.isDigit
          ∧ dval h1 * 10 + dval h2 ≤ 23 ∧ dval m1 * 10 + dval m2 ≤ 59 then
        some (dval h1 * 10 + dval h2, dval m1 * 10 + dval m2)
      else none
  | _ => none

end ParkPulse

namespace ParkPulse

/-! ### Helper lemmas -/

/-- Any value the modal parser produces lies within one calendar day. -/
theorem timeToMinutes_le_1439 (s : String) (v : ℕ) (h : timeToMinutes s = some v) :
    v ≤ 1439 := by
  unfold timeToMinutes at h
  split at h
  · split at h
    · split at h
      · rename_i hrange
        injection h with h
        omega
      · cases h
    · cases h
  · split at h
    · split at h
      · rename_i hrange
        injection h with h
        omega
      · cases h
    · cases h
  · cases h

/-- Acceptance by the modal validator forces both requested times to parse
and the span to be strictly ordered. -/
theorem handleConfirmClick_accepted_inv (a b c d : String) (s e : ℕ)
    (h : handleConfirmClick a b c d = ValidationResult.accepted s e) :
    timeToMinutes a = some s ∧ timeToMinutes b = some e ∧ s < e := by
  unfold handleConfirmClick at h
  split at h
  · rename_i s' e' heqa heqb
    split at h
    · cases h
    · rename_i hns
      split at h
      · cases h
      · injection h with h1 h2
        subst h1
        subst h2
        exact ⟨heqa, heqb, by omega⟩
  · cases h

/-- `jsToFixed2` of a non-negative value is non-negative. -/
theorem jsToFixed2_nonneg (x : ℚ) (hx : 0 ≤ x) : 0 ≤ jsToFixed2 x := by
  unfold jsToFixed2
  exact Int.floor_nonneg.mpr (by linarith)

/-- `jsToFixed2` is monotone. -/
theorem jsToFixed2_mono {x y : ℚ} (h : x ≤ y) : jsToFixed2 x ≤ jsToFixed2 y := by
  unfold jsToFixed2
  exact Int.floor_le_floor (by linarith)

/-- A decimal digit is not a colon. -/
theorem digit_ne_colon {c : Char} (hc : c.isDigit = true) : c ≠ ':' := by
  rintro rfl
  exact absurd hc (by decide)

/-- Splitting a four-character `H:MM` shape at the colon. -/
theorem splitCols_time4 (h1 m1 m2 : Char)
    (hh1 : h1 ≠ ':') (hm1 : m1 ≠ ':') (hm2 : m2 ≠ ':') :
    splitCols [h1, ':', m1, m2] = [[h1], [m1, m2]] := by
  simp [splitCols, hh1, hm1, hm2]

/-- Splitting a five-character `HH:MM` shape at the colon. -/
theorem splitCols_time5 (h1 h2 m1 m2 : Char)
    (hh1 : h1 ≠ ':') (hh2 : h2 ≠ ':') (hm1 : m1 ≠ ':') (hm2 : m2 ≠ ':') :
    splitCols [h1, h2, ':', m1, m2] = [[h1, h2], [m1, m2]] := by
  simp [splitCols, hh1, hh2, hm1, hm2]

/-- The value of a one-digit run. -/
theorem digitsToNat_one (a : Char) : digitsToNat [a] = dval a := by
  simp [digitsToNat]

/-- The value of a two-digit run. -/
theorem digitsToNat_two (a b : Char) : digitsToNat [a, b] = dval a * 10 + dval b := by
  simp [digitsToNat, List.foldl]

/-- Every member of a one-element digit list is a digit. -/
theorem all_digits_one {a : Char} (ha : a.isDigit = true) :
    ∀ c ∈ [a], c.isDigit = true := by
  intro c hc
  rcases List.mem_cons.mp hc with rfl | hc
  · exact ha
  · simp at hc

/-- Every member of a two-element digit list is a digit. -/
theorem all_digits_two {a b : Char} (ha : a.isDigit = true) (hb : b.isDigit = true) :
    ∀ c ∈ [a, b], c.isDigit = true := by
  intro c hc
  rcases List.mem_cons.mp hc with rfl | hc
  · exact ha
  · rcases List.mem_cons.mp hc with rfl | hc
    · exact hb
    · simp at hc

/-- `parseInt` on a non-empty pure digit run returns its value. -/
theorem parseIntTen_all_digits (l : List Char) (hne : l ≠ [])
    (hall : ∀ c ∈ l, c.isDigit = true) :
    parseIntTen l = some ((digitsToNat l : ℕ) : ℤ) := by
  cases l with
  | nil => exact absurd rfl hne
  | cons c rest =>
    have hc : c.isDigit = true := hall c (List.mem_cons_self c rest)
    have hws : ¬ (c = ' ' ∨ c = '\t' ∨ c = '\n' ∨ c = '\r') := by
      rintro (rfl | rfl | rfl | rfl) <;> exact absurd hc (by decide)
    have hminus : c ≠ '-' := by rintro rfl; exact absurd hc (by decide)
    have hplus : c ≠ '+' := by rintro rfl; exact absurd hc (by decide)
    have htake : (c :: rest).takeWhile Char.isDigit = c :: rest :=
      List.takeWhile_eq_self_iff.mpr hall
    have hdp : leadingDigits (c :: rest) = some (digitsToNat (c :: rest)) := by
      unfold leadingDigits
      rw [htake]
    unfold parseIntTen
    rw [List.dropWhile_cons, if_neg (by simpa using hws)]
    simp [hminus, hplus, hdp]

end ParkPulse

namespace ParkPulse

/-! ### Claims -/

/-- C1: with a well-formed listing window, the booking-window validator of
the confirmation modal applies its checks in this exact order: malformed
requested time first (regardless of ordering or window containment), then
`start >= end` (so zero-length spans are rejected), then containment in the
advertised window (boundary equality accepted), and otherwise accepts with
the parsed minute pair. -/
theorem booking_window_validation_order
    (startText endText listingStart listingEnd : String) (ls le : ℕ)
    (hls : timeToMinutes listingStart = some ls)
    (hle : timeToMinutes listingEnd = some le) :
    ((timeToMinutes startText = none ∨ timeToMinutes endText = none) →
        handleConfirmClick startText endText listingStart listingEnd
          = ValidationResult.malformedTime)
    ∧ (∀ s e, timeToMinutes startText = some s → timeToMinutes endText = some e →
        ((e ≤ s →
            handleConfirmClick startText endText listingStart listingEnd
              = ValidationResult.endNotAfterStart)
          ∧ (s < e → (s < ls ∨ le < e) →
              handleConfirmClick startText endText listingStart listingEnd
                = ValidationResult.outsideListingWindow)
          ∧ (s < e → ls ≤ s → e ≤ le →
              handleConfirmClick startText endText listingStart listingEnd
                = ValidationResult.accepted s e))) := by
  constructor
  · intro h
    rcases hst : timeToMinutes startText with _ | s
    · simp [handleConfirmClick, hst]
    · rcases het : timeToMinutes endText with _ | e
      · simp [handleConfirmClick, hst, het]
      · rcases h with h | h
        · rw [hst] at h; cases h
        · rw [het] at h; cases h
  · intro s e hs he
    refine ⟨?_, ?_, ?_⟩
    · intro hord
      simp [handleConfirmClick, hs, he, hord]
    · intro hord hout
      have hns : ¬ (e ≤ s) := by omega
      have hcond : (jsLt (some s) (timeToMinutes listingStart)
          || jsLt (timeToMinutes listingEnd) (some e)) = true := by
        rw [hls, hle]
        simp only [jsLt, Bool.or_eq_true, decide_eq_true_eq]
        omega
      simp [handleConfirmClick, hs, he, hns, hcond]
    · intro hord hin1 hin2
      have hns : ¬ (e ≤ s) := by omega
      have hcond : (jsLt (some s) (timeToMinutes listingStart)
          || jsLt (timeToMinutes listingEnd) (some e)) = false := by
        rw [hls, hle]
        simp only [jsLt, Bool.or_eq_false_iff, decide_eq_false_iff_not]
        omega
      simp [handleConfirmClick, hs, he, hns, hcond]

/-- C1 witness: a concrete instance of each branch of the ordering theorem. -/
theorem booking_window_validation_order_witness :
    handleConfirmClick "08:00" "10:00" "09:00" "17:00"
      = ValidationResult.outsideListingWindow
    ∧ handleConfirmClick "10:00" "10:00" "09:00" "17:00"
      = ValidationResult.endNotAfterStart
    ∧ handleConfirmClick "09:00" "17:00" "09:00" "17:00"
      = ValidationResult.accepted 540 1020
    ∧ handleConfirmClick "9x:00" "08:00" "09:00" "17:00"
      = ValidationResult.malformedTime := by
  refine ⟨?_, ?_, ?_, ?_⟩
  · exact (((booking_window_validation_order "08:00" "10:00" "09:00" "17:00" 540 1020
      (by decide) (by decide)).2 480 600 (by decide) (by decide)).2.1) (by decide)
      (Or.inl (by decide))
  · exact (((booking_window_validation_order "10:00" "10:00" "09:00" "17:00" 540 1020
      (by decide) (by decide)).2 600 600 (by decide) (by decide)).1) (by decide)
  · exact (((booking_window_validation_order "09:00" "17:00" "09:00" "17:00" 540 1020
      (by decide) (by decide)).2 540 1020 (by decide) (by decide)).2.2) (by decide)
      (by decide) (by decide)
  · exact (booking_window_validation_order "9x:00" "08:00" "09:00" "17:00" 540 1020
      (by decide) (by decide)).1 (Or.inl (by decide))

/-- C7 counterexample: with both listing-window strings malformed, a
well-formed, ordered request is accepted, not rejected with the
malformed-time reason — the `NaN` comparisons of the third check are all
false, and the `isNaN` guard never looks at the listing bounds. -/
theorem malformed_listing_window_not_rejected :
    handleConfirmClick "09:00" "10:00" "ab" "cd" = ValidationResult.accepted 540 600
    ∧ handleConfirmClick "09:00" "10:00" "ab" "cd" ≠ ValidationResult.malformedTime := by
  exact ⟨by decide, by decide⟩

/-- C7 amended: when both listing-window strings fail time parsing, the
validator accepts every well-formed, strictly ordered request (the
window-containment comparisons are vacuously false on `NaN`), rather than
rejecting it with the malformed-time reason as the spec prescribes. -/
theorem malformed_listing_window_accepts
    (startText endText listingStart listingEnd : String) (s e : ℕ)
    (hs : timeToMinutes startText = some s) (he : timeToMinutes endText = some e)
    (hord : s < e)
    (hl1 : timeToMinutes listingStart = none)
    (hl2 : timeToMinutes listingEnd = none) :
    handleConfirmClick startText endText listingStart listingEnd
      = ValidationResult.accepted s e := by
  have hns : ¬ (e ≤ s) := by omega
  simp [handleConfirmClick, hs, he, hns, hl1, hl2, jsLt]

/-- C7 witness for the amended claim. -/
theorem malformed_listing_window_accepts_witness :
    handleConfirmClick "09:30" "11:00" "xx" "yy" = ValidationResult.accepted 570 660 :=
  malformed_listing_window_accepts "09:30" "11:00" "xx" "yy" 570 660
    (by decide) (by decide) (by decide) (by decide) (by decide)

/-- C10: the modal parser only ever produces `NaN` or a minute count in
[0, 1439] (it is `ℕ`-valued here, so non-negativity is by type), and every
span the validator accepts satisfies `start < end ≤ 1439`. -/
theorem accepted_span_within_day :
    (∀ s v, timeToMinutes s = some v → v ≤ 1439)
    ∧ (∀ startText endText listingStart listingEnd s e,
        handleConfirmClick startText endText listingStart listingEnd
          = ValidationResult.accepted s e →
        s < e ∧ e ≤ 1439) := by
  refine ⟨timeToMinutes_le_1439, ?_⟩
  intro a b c d s e h
  obtain ⟨hs, he, hord⟩ := handleConfirmClick_accepted_inv a b c d s e h
  exact ⟨hord, timeToMinutes_le_1439 b e he⟩

/-- C10 witness: the parser bound and the accepted-span bound at concrete
inputs. -/
theorem accepted_span_within_day_witness :
    (540 ≤ 1439) ∧ (540 < 1020 ∧ 1020 ≤ 1439) :=
  ⟨accepted_span_within_day.1 "09:00" 540 (by decide),
   accepted_span_within_day.2 "09:00" "17:00" "09:00" "17:00" 540 1020 (by decide)⟩

/-- C4 counterexample: the dashboard's cost helper does not return `0.00` on
an inverted span — it wraps to the next day and charges 23 hours
(`$115.00`), so the claim fails at that call site. -/
theorem profile_cost_inverted_not_zero :
    profileCalculateTotalCost 5 "10:00" "09:00" = some 11500
    ∧ profileCalculateTotalCost 5 "10:00" "09:00" ≠ some 0 := by
  have h1 : jsNumberAt (splitCols (chars "10:00")) 0 = some 10 := by decide
  have h2 : jsNumberAt (splitCols (chars "10:00")) 1 = some 0 := by decide
  have h3 : jsNumberAt (splitCols (chars "09:00")) 0 = some 9 := by decide
  have h4 : jsNumberAt (splitCols (chars "09:00")) 1 = some 0 := by decide
  have h : profileCalculateTotalCost 5 "10:00" "09:00" = some 11500 := by
    simp only [profileCalculateTotalCost, h1, h2, h3, h4]
    norm_num [jsToFixed2]
  refine ⟨h, ?_⟩
  rw [h]
  simp

/-- C4 amended: the booking modal's cost helper returns `0.00` on every
inverted or zero-length span and on every unparseable time, and is never
negative for a non-negative rate; the dashboard's helper instead wraps an
inverted span to the next day and charges a positive overnight cost
(concretely, `$115.00` for a 10:00 → 09:00 request at $5/h). -/
theorem modal_cost_zero_on_invalid_span :
    (∀ (rate : ℚ) (startText endText : String) (s e : ℕ),
        timeToMinutes startText = some s → timeToMinutes endText = some e →
        e ≤ s → calculateTotalCost rate startText endText = 0)
    ∧ (∀ (rate : ℚ) (startText endText : String),
        timeToMinutes startText = none ∨ timeToMinutes endText = none →
        calculateTotalCost rate startText endText = 0)
    ∧ (∀ (rate : ℚ) (startText endText : String), 0 ≤ rate →
        0 ≤ calculateTotalCost rate startText endText)
    ∧ profileCalculateTotalCost 5 "10:00" "09:00" = some 11500 := by
  refine ⟨?_, ?_, ?_, ?_⟩
  · intro rate startText endText s e hs he hord
    simp [calculateTotalCost, hs, he, hord]
  · intro rate startText endText h
    rcases hst : timeToMinutes startText with _ | s
    · simp [calculateTotalCost, hst]
    · rcases het : timeToMinutes endText with _ | e
      · simp [calculateTotalCost, hst, het]
      · rcases h with h | h
        · rw [hst] at h; cases h
        · rw [het] at h; cases h
  · intro rate startText endText hrate
    unfold calculateTotalCost
    split
    · split
      · exact le_refl 0
      · apply jsToFixed2_nonneg
        apply div_nonneg _ (by norm_num)
        exact mul_nonneg hrate (Nat.cast_nonneg _)
    · exact le_refl 0
  · have h1 : jsNumberAt (splitCols (chars "10:00")) 0 = some 10 := by decide
    have h2 : jsNumberAt (splitCols (chars "10:00")) 1 = some 0 := by decide
    have h3 : jsNumberAt (splitCols (chars "09:00")) 0 = some 9 := by decide
    have h4 : jsNumberAt (splitCols (chars "09:00")) 1 = some 0 := by decide
    simp only [profileCalculateTotalCost, h1, h2, h3, h4]
    norm_num [jsToFixed2]

/-- C4 witness for the amended claim: the modal helper at concrete invalid
spans. -/
theorem modal_cost_zero_on_invalid_span_witness :
    calculateTotalCost 5 "10:00" "09:00" = 0
    ∧ calculateTotalCost 5 "10:00" "10:00" = 0
    ∧ calculateTotalCost 5 "abc" "10:00" = 0
    ∧ 0 ≤ calculateTotalCost 5 "09:00" "17:00" :=
  ⟨modal_cost_zero_on_invalid_span.1 5 "10:00" "09:00" 600 540
      (by decide) (by decide) (by decide),
   modal_cost_zero_on_invalid_span.1 5 "10:00" "10:00" 600 600
      (by decide) (by decide) (by decide),
   modal_cost_zero_on_invalid_span.2.1 5 "abc" "10:00" (Or.inl (by decide)),
   modal_cost_zero_on_invalid_span.2.2.1 5 "09:00" "17:00" (by norm_num)⟩

/-- C5: on a validated span the modal's cost helper computes
`rate * (end - start) / 60` dollars rounded to cents under the single
ECMAScript `toFixed` rule (round half up on the exact value); the rule is
pinned at the `.005` boundary by the `$0.125 → $0.13` instance, and the two
spec examples evaluate to `$40.00` and `$3.75`. -/
theorem modal_cost_formula :
    (∀ (rate : ℚ) (startText endText : String) (s e : ℕ),
        timeToMinutes startText = some s → timeToMinutes endText = some e →
        s < e →
        calculateTotalCost rate startText endText
          = jsToFixed2 (rate * ((e - s : ℕ) : ℚ) / 60))
    ∧ calculateTotalCost 5 "09:00" "17:00" = 4000
    ∧ calculateTotalCost (15 / 2) "09:00" "09:30" = 375
    ∧ calculateTotalCost (1 / 4) "09:00" "09:30" = 13 := by
  have h0900 : timeToMinutes "09:00" = some 540 := by decide
  have h1700 : timeToMinutes "17:00" = some 1020 := by decide
  have h0930 : timeToMinutes "09:30" = some 570 := by decide
  refine ⟨?_, ?_, ?_, ?_⟩
  · intro rate startText endText s e hs he hord
    have hns : ¬ (e ≤ s) := by omega
    simp [calculateTotalCost, hs, he, hns]
  · simp only [calculateTotalCost, h0900, h1700]
    norm_num [jsToFixed2]
  · simp only [calculateTotalCost, h0900, h0930]
    norm_num [jsToFixed2]
  · simp only [calculateTotalCost, h0900, h0930]
    norm_num [jsToFixed2]

/-- C5 witness: the formula conjunct applied at the 8-hour span. -/
theorem modal_cost_formula_witness :
    calculateTotalCost 5 "09:00" "17:00" = jsToFixed2 (5 * ((1020 - 540 : ℕ) : ℚ) / 60) :=
  modal_cost_formula.1 5 "09:00" "17:00" 540 1020 (by decide) (by decide) (by decide)

/-- C6: for a fixed non-negative rate, the cost of every span accepted by the
validator is non-negative, and cost is monotone non-decreasing in the
duration `end - start` across accepted spans. -/
theorem accepted_cost_nonneg_monotone
    (rate : ℚ) (hrate : 0 ≤ rate)
    (a1 b1 c1 d1 a2 b2 c2 d2 : String) (s1 e1 s2 e2 : ℕ)
    (h1 : handleConfirmClick a1 b1 c1 d1 = ValidationResult.accepted s1 e1)
    (h2 : handleConfirmClick a2 b2 c2 d2 = ValidationResult.accepted s2 e2) :
    0 ≤ calculateTotalCost rate a1 b1
    ∧ (e1 - s1 ≤ e2 - s2 →
        calculateTotalCost rate a1 b1 ≤ calculateTotalCost rate a2 b2) := by
  obtain ⟨hs1, he1, ho1⟩ := handleConfirmClick_accepted_inv a1 b1 c1 d1 s1 e1 h1
  obtain ⟨hs2, he2, ho2⟩ := handleConfirmClick_accepted_inv a2 b2 c2 d2 s2 e2 h2
  have hns1 : ¬ (e1 ≤ s1) := by omega
  have hns2 : ¬ (e2 ≤ s2) := by omega
  have hc1 : calculateTotalCost rate a1 b1
      = jsToFixed2 (rate * ((e1 - s1 : ℕ) : ℚ) / 60) := by
    simp [calculateTotalCost, hs1, he1, hns1]
  have hc2 : calculateTotalCost rate a2 b2
      = jsToFixed2 (rate * ((e2 - s2 : ℕ) : ℚ) / 60) := by
    simp [calculateTotalCost, hs2, he2, hns2]
  constructor
  · rw [hc1]
    apply jsToFixed2_nonneg
    apply div_nonneg _ (by norm_num)
    exact mul_nonneg hrate (Nat.cast_nonneg _)
  · intro hd
    rw [hc1, hc2]
    apply jsToFixed2_mono
    have hcast : ((e1 - s1 : ℕ) : ℚ) ≤ ((e2 - s2 : ℕ) : ℚ) := by exact_mod_cast hd
    gcongr

/-- C6 witness: non-negativity and monotonicity at two concrete accepted
spans with the same rate. -/
theorem accepted_cost_nonneg_monotone_witness :
    0 ≤ calculateTotalCost 5 "09:00" "10:00"
    ∧ calculateTotalCost 5 "09:00" "10:00" ≤ calculateTotalCost 5 "09:00" "17:00" := by
  have h := accepted_cost_nonneg_monotone 5 (by norm_num)
    "09:00" "10:00" "09:00" "17:00" "09:00" "17:00" "09:00" "17:00"
    540 600 540 1020 (by decide) (by decide)
  exact ⟨h.1, h.2 (by decide)⟩

/-- C9 counterexample: the dashboard charges the wrapped overnight formula,
but for a small positive rate the rounded result is exactly `0.00`
($0.01/h over the one-minute wrap 23:59 → 00:00 is $0.000166…, which
`toFixed(2)` displays as `0.00`), contradicting "never 0.00". -/
theorem profile_cost_small_rate_rounds_to_zero :
    profileCalculateTotalCost (1 / 100) "23:59" "00:00" = some 0 := by
  have h1 : jsNumberAt (splitCols (chars "23:59")) 0 = some 23 := by decide
  have h2 : jsNumberAt (splitCols (chars "23:59")) 1 = some 59 := by decide
  have h3 : jsNumberAt (splitCols (chars "00:00")) 0 = some 0 := by decide
  have h4 : jsNumberAt (splitCols (chars "00:00")) 1 = some 0 := by decide
  simp only [profileCalculateTotalCost, h1, h2, h3, h4]
  norm_num [jsToFixed2]

/-- C9 amended: for every rate and all numerically parseable components, the
dashboard's cost helper treats `end <= start` as wrapping to the next day and
returns `rate * (1440 - (start - end)) / 60` dollars rounded to cents (a
span whose end equals its start is charged a full 24 hours, `rate * 24`);
the result is non-negative for a non-negative rate and in-range components
(though it can round down to `0.00` for small rates), and `'N/A'` occurs
exactly when some component is not numeric. -/
theorem profile_cost_overnight_wrap :
    (∀ (rate : ℚ) (startText endText : String) (sh sm eh em : ℤ),
        jsNumberAt (splitCols (chars startText)) 0 = some sh →
        jsNumberAt (splitCols (chars startText)) 1 = some sm →
        jsNumberAt (splitCols (chars endText)) 0 = some eh →
        jsNumberAt (splitCols (chars endText)) 1 = some em →
        ((eh * 60 + em ≤ sh * 60 + sm →
            profileCalculateTotalCost rate startText endText
              = some (jsToFixed2 (rate
                  * ((1440 - (sh * 60 + sm - (eh * 60 + em)) : ℤ) : ℚ) / 60)))
          ∧ (sh * 60 + sm < eh * 60 + em →
              profileCalculateTotalCost rate startText endText
                = some (jsToFixed2 (rate
                    * ((eh * 60 + em - (sh * 60 + sm) : ℤ) : ℚ) / 60)))
          ∧ (eh * 60 + em = sh * 60 + sm →
              profileCalculateTotalCost rate startText endText
                = some (jsToFixed2 (rate * 24)))
          ∧ (0 ≤ rate → eh * 60 + em ≤ sh * 60 + sm →
              sh * 60 + sm - (eh * 60 + em) ≤ 1439 →
              ∃ cost, profileCalculateTotalCost rate startText endText = some cost
                ∧ 0 ≤ cost)))
    ∧ (∀ (rate : ℚ) (startText endText : String),
        profileCalculateTotalCost rate startText endText = none ↔
          (jsNumberAt (splitCols (chars startText)) 0 = none
            ∨ jsNumberAt (splitCols (chars startText)) 1 = none
            ∨ jsNumberAt (splitCols (chars endText)) 0 = none
            ∨ jsNumberAt (splitCols (chars endText)) 1 = none)) := by
  constructor
  · intro rate startText endText sh sm eh em hsh hsm heh hem
    refine ⟨?_, ?_, ?_, ?_⟩
    · intro hwrap
      simp only [profileCalculateTotalCost, hsh, hsm, heh, hem, if_pos hwrap]
      congr 2
      push_cast
      ring
    · intro hstrict
      simp only [profileCalculateTotalCost, hsh, hsm, heh, hem,
        if_neg (by omega : ¬ (eh * 60 + em ≤ sh * 60 + sm))]
    · intro hEq
      simp only [profileCalculateTotalCost, hsh, hsm, heh, hem,
        if_pos (le_of_eq hEq)]
      congr 2
      rw [hEq]
      push_cast
      ring
    · intro hrate hwrap hday
      refine ⟨jsToFixed2 (rate
        * ((1440 - (sh * 60 + sm - (eh * 60 + em)) : ℤ) : ℚ) / 60), ?_, ?_⟩
      · simp only [profileCalculateTotalCost, hsh, hsm, heh, hem, if_pos hwrap]
        congr 2
        push_cast
        ring
      · apply jsToFixed2_nonneg
        apply div_nonneg _ (by norm_num)
        apply mul_nonneg hrate
        have : (0 : ℤ) ≤ 1440 - (sh * 60 + sm - (eh * 60 + em)) := by omega
        exact_mod_cast this
  · intro rate startText endText
    constructor
    · intro hnone
      rcases h1 : jsNumberAt (splitCols (chars startText)) 0 with _ | x1
      · exact Or.inl rfl
      rcases h2 : jsNumberAt (splitCols (chars startText)) 1 with _ | x2
      · exact Or.inr (Or.inl rfl)
      rcases h3 : jsNumberAt (splitCols (chars endText)) 0 with _ | x3
      · exact Or.inr (Or.inr (Or.inl rfl))
      rcases h4 : jsNumberAt (splitCols (chars endText)) 1 with _ | x4
      · exact Or.inr (Or.inr (Or.inr rfl))
      simp only [profileCalculateTotalCost, h1, h2, h3, h4] at hnone
      cases hnone
    · rintro (h | h | h | h)
      · simp [profileCalculateTotalCost, h]
      · rcases h1 : jsNumberAt (splitCols (chars startText)) 0 with _ | x1 <;>
          simp [profileCalculateTotalCost, h1, h]
      · rcases h1 : jsNumberAt (splitCols (chars startText)) 0 with _ | x1 <;>
          rcases h2 : jsNumberAt (splitCols (chars startText)) 1 with _ | x2 <;>
          simp [profileCalculateTotalCost, h1, h2, h]
      · rcases h1 : jsNumberAt (splitCols (chars startText)) 0 with _ | x1 <;>
          rcases h2 : jsNumberAt (splitCols (chars startText)) 1 with _ | x2 <;>
          rcases h3 : jsNumberAt (splitCols (chars endText)) 0 with _ | x3 <;>
          simp [profileCalculateTotalCost, h1, h2, h3, h]

/-- C9 witness for the amended claim: the wrap formula, the 24-hour
equal-endpoints charge, and the `'N/A'` direction at concrete inputs. -/
theorem profile_cost_overnight_wrap_witness :
    profileCalculateTotalCost 5 "10:00" "09:00"
      = some (jsToFixed2 (5 * ((1440 - (10 * 60 + 0 - (9 * 60 + 0)) : ℤ) : ℚ) / 60))
    ∧ profileCalculateTotalCost 5 "09:00" "09:00" = some (jsToFixed2 (5 * 24))
    ∧ profileCalculateTotalCost 5 "ab:00" "10:00" = none := by
  refine ⟨?_, ?_, ?_⟩
  · exact ((profile_cost_overnight_wrap.1 5 "10:00" "09:00" 10 0 9 0
      (by decide) (by decide) (by decide) (by decide)).1) (by decide)
  · exact ((profile_cost_overnight_wrap.1 5 "09:00" "09:00" 9 0 9 0
      (by decide) (by decide) (by decide) (by decide)).2.2.1) (by decide)
  · exact (profile_cost_overnight_wrap.2 5 "ab:00" "10:00").mpr (Or.inl (by decide))

/-- C2 counterexample: the listing form's parser accepts a 1-digit minute —
`"9:5"` yields `545`, not the `-1` Invalid sentinel — so strict rejection
does not hold at every parsing call site. -/
theorem form_parsing_accepts_one_digit_minute :
    formTimeToMinutes "9:5" = 545 ∧ formTimeToMinutes "9:5" ≠ -1 := by
  exact ⟨by decide, by decide⟩

/-- C2 amended: the booking modal's parser is exactly as strict as the spec
shape (it succeeds precisely on 1–2-digit hour, colon, 2-digit minute with
components in range), and the listing form's parser rejects the empty
string, a missing colon, a bare colon, and out-of-range components — but,
through `parseInt`, accepts a 1-digit minute (`"9:5"` → 545) and
digit-prefixed components with trailing characters (`"9:30x"` → 570), which
the modal parser rejects. -/
theorem time_parsing_strictness :
    (∀ s : String, (timeToMinutes s).isSome = (specTimeValue s).isSome)
    ∧ formTimeToMinutes "" = -1
    ∧ formTimeToMinutes "0900" = -1
    ∧ formTimeToMinutes ":30" = -1
    ∧ formTimeToMinutes "24:00" = -1
    ∧ formTimeToMinutes "9:60" = -1
    ∧ formTimeToMinutes "9:5" = 545
    ∧ formTimeToMinutes "9:30x" = 570
    ∧ timeToMinutes "9:5" = none
    ∧ timeToMinutes "9:30x" = none := by
  refine ⟨?_, by decide, by decide, by decide, by decide, by decide, by decide,
    by decide, by decide, by decide⟩
  intro s
  unfold timeToMinutes specTimeValue
  rcases hl : chars s with _ | ⟨a, _ | ⟨b, _ | ⟨c, _ | ⟨d, _ | ⟨e, _ | ⟨f, rest⟩⟩⟩⟩⟩⟩
  · rfl
  · rfl
  · rfl
  · rfl
  · dsimp only
    split_ifs <;> first | rfl | tauto
  · dsimp only
    split_ifs <;> first | rfl | tauto
  · rfl

/-- C3: every spec-valid time string is parsed by both site parsers to
exactly `hours * 60 + minutes`, and the spec's concrete vectors hold at both
sites: `"09:00"` → 540, `"23:59"` → 1439, while `"24:00"`, `"9:60"`,
`"abc"` and `""` yield the Invalid signal (`NaN` at the modal, `-1` at the
form). -/
theorem time_parsing_minutes_since_midnight :
    (∀ (s : String) (h m : ℕ), specTimeValue s = some (h, m) →
        timeToMinutes s = some (h * 60 + m)
        ∧ formTimeToMinutes s = ((h * 60 + m : ℕ) : ℤ))
    ∧ timeToMinutes "09:00" = some 540 ∧ timeToMinutes "23:59" = some 1439
    ∧ timeToMinutes "24:00" = none ∧ timeToMinutes "9:60" = none
    ∧ timeToMinutes "abc" = none ∧ timeToMinutes "" = none
    ∧ formTimeToMinutes "09:00" = 540 ∧ formTimeToMinutes "23:59" = 1439
    ∧ formTimeToMinutes "24:00" = -1 ∧ formTimeToMinutes "9:60" = -1
    ∧ formTimeToMinutes "abc" = -1 ∧ formTimeToMinutes "" = -1 := by
  refine ⟨?_, by decide, by decide, by decide, by decide, by decide, by decide,
    by decide, by decide, by decide, by decide, by decide, by decide⟩
  intro s h m hs
  unfold specTimeValue at hs
  split at hs
  · rename_i h1 c m1 m2 heq
    split at hs
    · rename_i hcond
      obtain ⟨hd1, hcol, hdm1, hdm2, hh23, hm59⟩ := hcond
      subst hcol
      injection hs with hs
      rw [Prod.mk.injEq] at hs
      obtain ⟨hh, hm⟩ := hs
      subst hh
      subst hm
      constructor
      · simp [timeToMinutes, heq, hd1, hdm1, hdm2, hh23, hm59]
      · have hsplit := splitCols_time4 h1 m1 m2 (digit_ne_colon hd1)
          (digit_ne_colon hdm1) (digit_ne_colon hdm2)
        have hp0 : parseIntTen [h1] = some ((digitsToNat [h1] : ℕ) : ℤ) :=
          parseIntTen_all_digits [h1] (by simp) (all_digits_one hd1)
        have hp1 : parseIntTen [m1, m2] = some ((digitsToNat [m1, m2] : ℕ) : ℤ) :=
          parseIntTen_all_digits [m1, m2] (by simp) (all_digits_two hdm1 hdm2)
        simp only [formTimeToMinutes, heq, hsplit, hp0, hp1, digitsToNat_one,
          digitsToNat_two]
        rw [if_pos ⟨by positivity, by exact_mod_cast hh23, by positivity,
          by exact_mod_cast hm59⟩]
        push_cast
        ring
    · cases hs
  · rename_i h1 h2 c m1 m2 heq
    split at hs
    · rename_i hcond
      obtain ⟨hd1, hd2, hcol, hdm1, hdm2, hh23, hm59⟩ := hcond
      subst hcol
      injection hs with hs
      rw [Prod.mk.injEq] at hs
      obtain ⟨hh, hm⟩ := hs
      subst hh
      subst hm
      constructor
      · simp [timeToMinutes, heq, hd1, hd2, hdm1, hdm2, hh23, hm59]
      · have hsplit := splitCols_time5 h1 h2 m1 m2 (digit_ne_colon hd1)
          (digit_ne_colon hd2) (digit_ne_colon hdm1) (digit_ne_colon hdm2)
        have hp0 : parseIntTen [h1, h2] = some ((digitsToNat [h1, h2] : ℕ) : ℤ) :=
          parseIntTen_all_digits [h1, h2] (by simp) (all_digits_two hd1 hd2)
        have hp1 : parseIntTen [m1, m2] = some ((digitsToNat [m1, m2] : ℕ) : ℤ) :=
          parseIntTen_all_digits [m1, m2] (by simp) (all_digits_two hdm1 hdm2)
        simp only [formTimeToMinutes, heq, hsplit, hp0, hp1, digitsToNat_two]
        rw [if_pos ⟨by positivity, by exact_mod_cast hh23, by positivity,
          by exact_mod_cast hm59⟩]
        push_cast
        ring
    · cases hs
  · cases hs

/-- C3 witness: the universal conjunct applied at `"09:00"`. -/
theorem time_parsing_minutes_since_midnight_witness :
    timeToMinutes "09:00" = some (9 * 60 + 0)
    ∧ formTimeToMinutes "09:00" = ((9 * 60 + 0 : ℕ) : ℤ) :=
  time_parsing_minutes_since_midnight.1 "09:00" 9 0 (by decide)

/-- C8: both LLM email-generation functions degrade to their fixed,
deterministic per-call-site fallback whenever the model call throws or the
model's text is not parseable JSON, and each fallback has the well-formed
shape its response schema requires; when the text does parse, the parsed
value is returned. -/
theorem email_generation_fallback :
    (∀ (booking : Booking) (modelCall : Except Unit String)
        (jsonParse : String → Option JsonValue),
        ((∃ u, modelCall = .error u)
          ∨ (∃ t, modelCall = .ok t ∧ jsonParse t = none)) →
        generateBookingRequestEmail booking modelCall jsonParse
          = requestEmailFallback booking)
    ∧ (∀ booking : Booking, isSingleEmailShape (requestEmailFallback booking) = true)
    ∧ (∀ (booking : Booking) (modelCall : Except Unit String)
        (jsonParse : String → Option JsonValue) (t : String) (v : JsonValue),
        modelCall = .ok t → jsonParse t = some v →
        generateBookingRequestEmail booking modelCall jsonParse = v)
    ∧ (∀ (details : ConfirmationDetails) (modelCall : Except Unit String)
        (jsonParse : String → Option JsonValue),
        ((∃ u, modelCall = .error u)
          ∨ (∃ t, modelCall = .ok t ∧ jsonParse t = none)) →
        generateBookingConfirmationEmails details modelCall jsonParse
          = confirmationEmailsFallback details)
    ∧ (∀ details : ConfirmationDetails,
        isConfirmationEmailShape (confirmationEmailsFallback details) = true) := by
  refine ⟨?_, ?_, ?_, ?_, ?_⟩
  · rintro booking modelCall jsonParse (⟨u, rfl⟩ | ⟨t, rfl, hp⟩)
    · rfl
    · simp [generateBookingRequestEmail, hp]
  · intro booking
    rfl
  · rintro booking modelCall jsonParse t v rfl hp
    simp [generateBookingRequestEmail, hp]
  · rintro details modelCall jsonParse (⟨u, rfl⟩ | ⟨t, rfl, hp⟩)
    · rfl
    · simp [generateBookingConfirmationEmails, hp]
  · intro details
    rfl

/-- C8 witness: a throwing call and an unparseable response at a concrete
booking both produce the (well-formed) fallback. -/
theorem email_generation_fallback_witness :
    generateBookingRequestEmail
        ⟨"12 Elm St", "Ada", "ada@example.com", "2025-01-01", "09:00", "17:00"⟩
        (.error ()) (fun _ => none)
      = requestEmailFallback
          ⟨"12 Elm St", "Ada", "ada@example.com", "2025-01-01", "09:00", "17:00"⟩
    ∧ isSingleEmailShape (requestEmailFallback
        ⟨"12 Elm St", "Ada", "ada@example.com", "2025-01-01", "09:00", "17:00"⟩) = true
    ∧ generateBookingConfirmationEmails
        ⟨"Ada", "own@example.com", "12 Elm St", "2025-01-01", "09:00", "17:00", 5⟩
        (.ok "not json") (fun _ => none)
      = confirmationEmailsFallback
          ⟨"Ada", "own@example.com", "12 Elm St", "2025-01-01", "09:00", "17:00", 5⟩ :=
  ⟨email_generation_fallback.1 _ _ _ (Or.inl ⟨(), rfl⟩),
   email_generation_fallback.2.1 _,
   email_generation_fallback.2.2.2.1 _ _ _ (Or.inr ⟨"not json", rfl, rfl⟩)⟩

end ParkPulse
